import Mathlib

/-!
A shallow embedding of the ticket API controller
`src/controllers/api/v1/tickets.js` of the trudesk repository, together with
proofs about the behaviour of its handlers.

JavaScript `undefined`/`null` values are modelled with `Option`; the
asynchronous store callbacks (`ticket.save`, `getTicketById`, ...) are
modelled by passing their outcome as an explicit argument
(`Except String _` for lookups, `Option String` for a save error); the
markdown renderer `marked` is an abstract `String → String` argument; clock
reads (`Date.now()`) are an explicit `now : Nat` argument.  A handler that
would throw a runtime `TypeError` (and hence send no response) is modelled
by returning `none`.
-/

namespace Trudesk

/-- Split a character list at every character satisfying `p`, keeping empty
pieces (the behaviour of JS `String.prototype.split` with a single-character
separator, and of Lean's `String.split`). -/
def splitCharsAux (p : Char → Bool) : List Char → List Char → List (List Char)
  | [], acc => [acc.reverse]
  | c :: rest, acc =>
    if p c then acc.reverse :: splitCharsAux p rest []
    else splitCharsAux p rest (c :: acc)

def splitChars (p : Char → Bool) (s : String) : List String :=
  (splitCharsAux p s.data []).map String.mk

/-- `_s.clean` from underscore.string: trim the string and collapse every run
of whitespace to a single space. -/
def cleanString (s : String) : String :=
  String.intercalate " "
    ((splitChars Char.isWhitespace s).filter (fun x => x ≠ ""))

/-- The regex replace `/(\r\n|\n\r|\r|\n)/g → "<br>"` used on issue bodies and
comments: each line break (a CRLF or LFCR pair, or a lone CR or LF) becomes
the four characters `<br>`. -/
def replaceLineBreaksAux : List Char → List Char
  | [] => []
  | '\r' :: '\n' :: rest => '<' :: 'b' :: 'r' :: '>' :: replaceLineBreaksAux rest
  | '\n' :: '\r' :: rest => '<' :: 'b' :: 'r' :: '>' :: replaceLineBreaksAux rest
  | '\r' :: rest => '<' :: 'b' :: 'r' :: '>' :: replaceLineBreaksAux rest
  | '\n' :: rest => '<' :: 'b' :: 'r' :: '>' :: replaceLineBreaksAux rest
  | c :: rest => c :: replaceLineBreaksAux rest

def replaceLineBreaks (s : String) : String :=
  String.mk (replaceLineBreaksAux s.data)

/-- One entry of a ticket's audit history (`{action, description, owner}`). -/
structure HistoryItem where
  action : String
  description : String
  owner : Nat
  deriving Repr, DecidableEq

/-- One ticket comment (`{owner, date, comment}`), with the date as a
numeric timestamp. -/
structure TicketComment where
  owner : Nat
  date : Nat
  comment : String
  deriving Repr, DecidableEq

/-- One attachment record (id plus backing file path). -/
structure Attachment where
  id : String
  path : String
  deriving Repr, DecidableEq

/-- The ticket document, with the fields the controller touches.  User and
group references are numeric identifiers; optional document fields are
`Option`. -/
structure Ticket where
  owner : Nat
  status : Nat
  group : Nat
  closedDate : Option Nat
  tags : List String
  subject : String
  issue : Option String
  updated : Nat
  deleted : Bool
  comments : List TicketComment
  history : List HistoryItem
  attachments : List Attachment
  subscribers : List Nat
  deriving Repr, DecidableEq

/-! ## `api_tickets.create` -/

/-- The fields of a create request body that the handler reads.  A missing
field is `none` (JS `undefined`). -/
structure CreatePostData where
  socketId : Option String
  tags : Option String
  subject : Option String
  issue : Option String
  deriving Repr, DecidableEq

/-- `req.body` for `create`: either not an object at all, or an object with
the given fields. -/
inductive CreateBody where
  | notObject
  | obj (d : CreatePostData)
  deriving Repr, DecidableEq

/-- Modelled from the spec: the ticket document constructor
`new ticketModel(postData)` (the model file `models/ticket` is not under
`src/`).  Per the spec's data model, a freshly constructed ticket takes its
subject and issue body from the payload; its comments, history, attachments
and subscribers sequences start empty; status, group, timestamps and the
soft-delete flag start at their defaults. -/
def ticketFromPost (d : CreatePostData) : Ticket :=
  { owner := 0
    status := 0
    group := 0
    closedDate := none
    tags := []
    subject := d.subject.getD ""
    issue := d.issue
    updated := 0
    deleted := false
    comments := []
    history := []
    attachments := []
    subscribers := [] }

/-- Tag normalization in `create`: absent tags give `[]`; otherwise the
string is cleaned, split on commas, and falsy (empty-string) elements are
removed by `_.compact`. -/
def normalizeTags (t : Option String) : List String :=
  match t with
  | none => []
  | some s => (splitChars (fun c => c = ',') (cleanString s)).filter (fun x => x ≠ "")

/-- The JSON response of `create`: HTTP status, `success` flag, optional
`error` value, optional saved `ticket`. -/
structure CreateResponse where
  status : Nat
  success : Bool
  error : Option String
  ticket : Option Ticket
  deriving Repr, DecidableEq

/-- `api_tickets.create(req, res)`.  `marked` is the markdown renderer,
`reqUser` is `req.user._id`, `saveErr` the outcome of `ticket.save`
(`none` = success, in which case the saved document is returned unchanged).
The result is the response sent, or `none` when the handler throws before
responding (`ticket.issue.replace` on an undefined issue). -/
def create (marked : String → String) (reqUser : Nat)
    (body : CreateBody) (saveErr : Option String) : Option CreateResponse :=
  match body with
  | .notObject => some ⟨400, false, some "Invalid Post Data", none⟩
  | .obj d =>
    let tags := normalizeTags d.tags
    let hist : HistoryItem := ⟨"ticket:created", "Ticket was created.", reqUser⟩
    let t0 := ticketFromPost d
    let t1 := { t0 with owner := reqUser }
    match t1.issue with
    | none => none
    | some issue =>
      let t2 := { t1 with
        issue := some (marked (replaceLineBreaks issue))
        tags := tags
        history := [hist]
        subscribers := [reqUser] }
      match saveErr with
      | some e => some ⟨400, false, some e, none⟩
      | none => some ⟨200, true, none, some t2⟩

/-- The saved ticket of a create response, when one was sent and carries
one. -/
def createdTicket (r : Option CreateResponse) : Option Ticket :=
  r.bind (fun x => x.ticket)

/-! ## `api_tickets.single` (get by uid) -/

/-- The response of `single`: a JSON body (with HTTP status, `success`,
optional `error` and optional `ticket`), or a raw `res.send(err)` of a store
error. -/
inductive SingleResult where
  | json (status : Nat) (success : Bool) (error : Option String)
      (ticket : Option Ticket)
  | sendErr (e : String)
  deriving Repr, DecidableEq

/-- `api_tickets.single(req, res)`.  `uid` is `req.params.uid`; `lookup` is
the outcome of `getTicketByUid` (an error, or an optional record — `none`
when the store has no record for the uid). -/
def single (uid : Option String)
    (lookup : Except String (Option Ticket)) : SingleResult :=
  match uid with
  | none => .json 200 false (some "Invalid Ticket") none
  | some _ =>
    match lookup with
    | .error e => .sendErr e
    | .ok none => .json 200 false (some "Invalid Ticket") none
    | .ok (some t) => .json 200 true none (some t)

/-! ## `api_tickets.update` -/

/-- The fields of an update request body the handler reads; a missing field
is `none`. -/
structure UpdateBody where
  status : Option Nat
  group : Option Nat
  closedDate : Option Nat
  deriving Repr, DecidableEq

/-- What the `update` handler did.  `noAction`: the handler fell through its
guard — no store operation was invoked and no response was sent.
`sendText`: a text response was sent before any write (missing id, or the
lookup failed).  `saveFailed`: the write was attempted and the store
reported an error.  `savedTicket t`: the mutated ticket `t` was persisted
and returned as JSON. -/
inductive UpdateOutcome where
  | noAction
  | sendText (s : String)
  | saveFailed (e : String)
  | savedTicket (t : Ticket)
  deriving Repr, DecidableEq

/-- `api_tickets.update(req, res, next)`.  `user` is `req.user` (`none` for
both JS `undefined` and `null`), `oId` is `req.params.id`, `lookup` the
outcome of `getTicketById`, `saveErr` the outcome of `ticket.save`. -/
def update (user : Option Nat) (oId : Option String) (reqTicket : UpdateBody)
    (lookup : Except String Ticket) (saveErr : Option String) : UpdateOutcome :=
  match user with
  | none => .noAction
  | some _ =>
    match oId with
    | none => .sendText "Invalid Ticket Id"
    | some _ =>
      match lookup with
      | .error e => .sendText e
      | .ok ticket =>
        let t1 := match reqTicket.status with
          | none => ticket
          | some s => { ticket with status := s }
        let t2 := match reqTicket.group with
          | none => t1
          | some g => { t1 with group := g }
        let t3 := match reqTicket.closedDate with
          | none => t2
          | some c => { t2 with closedDate := some c }
        match saveErr with
        | some e => .saveFailed e
        | none => .savedTicket t3

/-! ## `api_tickets.postComment` -/

/-- The comment request body: `comment` text (possibly missing), `ownerId`,
and the ticket id `_id` (possibly missing). -/
structure CommentBody where
  comment : Option String
  ownerId : Nat
  ticketId : Option String
  deriving Repr, DecidableEq

/-- The outcome of `postComment`: a 401 JSON error from token
authentication, a raw text response sent before any write, a failed save,
or the mutated ticket persisted and returned. -/
inductive PostCommentResult where
  | authError (status : Nat) (e : String)
  | sendText (s : String)
  | saveFailed (e : String)
  | savedTicket (t : Ticket)
  deriving Repr, DecidableEq

/-- `api_tickets.postComment(req, res, next)`.  `authUser` is the outcome of
`getUserByAccessToken` (an error, or an optional user id), `now` the value
of `Date.now()`/`new Date()` during the call, `lookup` the outcome of
`getTicketById`, `saveErr` the outcome of `t.save`. -/
def postComment (marked : String → String) (now : Nat)
    (authUser : Except String (Option Nat)) (body : CommentBody)
    (lookup : Except String Ticket) (saveErr : Option String) :
    PostCommentResult :=
  match authUser with
  | .error e => .authError 401 e
  | .ok none => .authError 401 "Unknown User"
  | .ok (some user) =>
    match body.ticketId with
    | none => .sendText "Invalid Ticket Id"
    | some _ =>
      match lookup with
      | .error e => .sendText e
      | .ok t =>
        match body.comment with
        | none => .sendText "Invalid Comment"
        | some c =>
          let newComment : TicketComment :=
            ⟨body.ownerId, now, marked (replaceLineBreaks c)⟩
          let hist : HistoryItem :=
            ⟨"ticket:comment:added", "Comment was added", user⟩
          let t1 := { t with
            updated := now
            comments := t.comments ++ [newComment]
            history := t.history ++ [hist] }
          match saveErr with
          | some e => .saveFailed e
          | none => .savedTicket t1

/-! ## `api_tickets.removeAttachment` -/

/-- The requesting user as the handler sees it: id and role. -/
structure ReqUser where
  id : Nat
  role : String
  deriving Repr, DecidableEq

/-- The response of `removeAttachment`: a JSON error body with an HTTP
status, a `res.status(...).send(text)` response, or the saved ticket. -/
inductive RAResult where
  | jsonErr (status : Nat) (error : String)
  | sendStatusText (status : Nat) (s : String)
  | sendTicket (t : Ticket)
  deriving Repr, DecidableEq

/-- The HTTP status of a `removeAttachment` response (200 for the ticket
body). -/
def RAResult.status : RAResult → Nat
  | .jsonErr s _ => s
  | .sendStatusText s _ => s
  | .sendTicket _ => 200

/-- Modelled from the spec: `ticket.removeAttachment` on the ticket model
(`models/ticket` is not under `src/`).  Per the spec it removes the
attachment record with the given id from the ticket's attachments
sequence. -/
def ticketRemoveAttachment (aid : String) (t : Ticket) : Ticket :=
  { t with attachments := t.attachments.filter (fun a => a.id ≠ aid) }

/-- `api_tickets.removeAttachment(req, res)`.  `tid`/`aid` are
`req.params.tid`/`req.params.aid`, `user` is `req.user`, `canThis` is
`permissions.canThis` (role and permission string), `lookup` the outcome of
`getTicketById`, `removeErr` the outcome of the model's `removeAttachment`
callback, `saveErr` the outcome of `ticket.save`. -/
def removeAttachment (tid aid : Option String) (user : Option ReqUser)
    (canThis : String → String → Bool) (lookup : Except String Ticket)
    (removeErr : Option String) (saveErr : Option String) : RAResult :=
  match tid, aid with
  | some _, some a =>
    match user with
    | none => .jsonErr 400 "Invalid User Auth."
    | some u =>
      if canThis u.role "tickets:removeAttachment" then
        match lookup with
        | .error _ => .sendStatusText 400 "Invalid Ticket Id"
        | .ok ticket =>
          match removeErr with
          | some _ => .jsonErr 400 "Invalid Request."
          | none =>
            match saveErr with
            | some _ => .jsonErr 401 "Invalid Request."
            | none => .sendTicket (ticketRemoveAttachment a ticket)
      else .jsonErr 401 "Invalid Permissions"
  | _, _ => .jsonErr 400 "Invalid Attachment"

/-! ## `api_tickets.subscribe` -/

/-- Modelled from the spec: `ticket.addSubscriber` on the ticket model
(`models/ticket` is not under `src/`).  The spec's data model makes
`subscribers` a set of user references and `subscribe` a membership toggle,
so adding inserts the user only when absent. -/
def addSubscriber (u : Nat) (t : Ticket) : Ticket :=
  if u ∈ t.subscribers then t
  else { t with subscribers := t.subscribers ++ [u] }

/-- Modelled from the spec: `ticket.removeSubscriber` on the ticket model
(`models/ticket` is not under `src/`).  It removes the user from the
subscriber set. -/
def removeSubscriber (u : Nat) (t : Ticket) : Ticket :=
  { t with subscribers := t.subscribers.filter (fun v => v ≠ u) }

/-- The subscribe request body: `user` and the desired `subscribe` flag,
either possibly missing. -/
structure SubscribeBody where
  user : Option Nat
  subscribe : Option Bool
  deriving Repr, DecidableEq

/-- The response of `subscribe`: a JSON error with an HTTP status, or
`{success:true}` with the mutated ticket persisted. -/
inductive SubResult where
  | jsonErr (status : Nat) (error : String)
  | ok (t : Ticket)
  deriving Repr, DecidableEq

/-- `api_tickets.subscribe(req, res)`.  `ticketId` is `req.params.id`,
`lookup` the outcome of `getTicketById`, `saveErr` the outcome of
`ticket.save`. -/
def subscribe (ticketId : Option String) (data : SubscribeBody)
    (lookup : Except String Ticket) (saveErr : Option String) : SubResult :=
  match data.user, data.subscribe with
  | some u, some sub =>
    match lookup with
    | .error _ => .jsonErr 400 "Invalid Ticket Id"
    | .ok ticket =>
      let t1 := if sub then addSubscriber u ticket else removeSubscriber u ticket
      match saveErr with
      | some e => .jsonErr 400 e
      | none => .ok t1
  | _, _ => .jsonErr 400 "Invalid Payload."

/-- The persisted ticket of a subscribe response, with a fallback for error
responses. -/
def SubResult.ticketOr (d : Ticket) : SubResult → Ticket
  | .jsonErr _ _ => d
  | .ok t => t

/-- The persisted ticket of a postComment outcome, with a fallback for the
non-success outcomes. -/
def PostCommentResult.ticketOr (d : Ticket) : PostCommentResult → Ticket
  | .savedTicket t => t
  | _ => d

/-- A concrete ticket used to instantiate theorems on sample data. -/
def exTicket : Ticket :=
  { owner := 1
    status := 0
    group := 4
    closedDate := none
    tags := []
    subject := "sample"
    issue := some "sample issue"
    updated := 5
    deleted := false
    comments := []
    history := []
    attachments := [⟨"a1", "/uploads/a1.png"⟩]
    subscribers := [1] }

/-- A concrete ticket whose subscriber set already contains user 5. -/
def exSubTicket : Ticket :=
  { exTicket with subscribers := [5] }

/-- A permission table granting `tickets:removeAttachment` to the role
`"admin"` only. -/
def adminOnly : String → String → Bool :=
  fun role _ => role = "admin"

/-! ## Theorems -/

/-- C1: every successful `create(payload, requester)` stores a ticket whose
history is exactly the single entry `{action := "ticket:created", owner :=
requester}` and whose subscribers are exactly `[requester]`, before any
other mutation. -/
theorem create_initial_history_and_subscriber
    (marked : String → String) (u : Nat) (d : CreatePostData) (iss : String)
    (hi : d.issue = some iss) :
    create marked u (.obj d) none =
      some ⟨200, true, none, some
        { ticketFromPost d with
            owner := u
            issue := some (marked (replaceLineBreaks iss))
            tags := normalizeTags d.tags
            history := [⟨"ticket:created", "Ticket was created.", u⟩]
            subscribers := [u] }⟩ := by
  simp [create, ticketFromPost, hi]

/-- Witness for C1 at a concrete payload. -/
theorem create_initial_history_and_subscriber_witness :
    create id 7 (.obj ⟨none, none, some "Subject", some "hello"⟩) none =
      some ⟨200, true, none, some
        { ticketFromPost ⟨none, none, some "Subject", some "hello"⟩ with
            owner := 7
            issue := some (id (replaceLineBreaks "hello"))
            tags := normalizeTags none
            history := [⟨"ticket:created", "Ticket was created.", 7⟩]
            subscribers := [7] }⟩ :=
  create_initial_history_and_subscriber id 7
    ⟨none, none, some "Subject", some "hello"⟩ "hello" rfl

/-- C2: a successful `postComment` appends exactly one comment and one
history entry, and the resulting `updated` timestamp (set to the current
clock) is ≥ the previous one whenever the clock has not gone backwards. -/
theorem postComment_appends_one
    (marked : String → String) (now user : Nat) (body : CommentBody)
    (t : Ticket) (c tid : String)
    (hc : body.comment = some c) (ht : body.ticketId = some tid)
    (hmono : t.updated ≤ now) :
    postComment marked now (Except.ok (some user)) body (Except.ok t) none =
      .savedTicket ((postComment marked now (Except.ok (some user)) body
        (Except.ok t) none).ticketOr t) ∧
    ((postComment marked now (Except.ok (some user)) body (Except.ok t)
        none).ticketOr t).comments.length = t.comments.length + 1 ∧
    ((postComment marked now (Except.ok (some user)) body (Except.ok t)
        none).ticketOr t).history.length = t.history.length + 1 ∧
    t.updated ≤ ((postComment marked now (Except.ok (some user)) body
        (Except.ok t) none).ticketOr t).updated := by
  refine ⟨?_, ?_, ?_, ?_⟩ <;>
    simp [postComment, hc, ht, PostCommentResult.ticketOr, hmono]

/-- Witness for C2 at a concrete comment on `exTicket`. -/
theorem postComment_appends_one_witness :
    postComment id 10 (Except.ok (some 2)) ⟨some "hi", 3, some "t1"⟩
      (Except.ok exTicket) none =
      .savedTicket ((postComment id 10 (Except.ok (some 2))
        ⟨some "hi", 3, some "t1"⟩ (Except.ok exTicket) none).ticketOr
        exTicket) ∧
    ((postComment id 10 (Except.ok (some 2)) ⟨some "hi", 3, some "t1"⟩
        (Except.ok exTicket) none).ticketOr exTicket).comments.length =
      exTicket.comments.length + 1 ∧
    ((postComment id 10 (Except.ok (some 2)) ⟨some "hi", 3, some "t1"⟩
        (Except.ok exTicket) none).ticketOr exTicket).history.length =
      exTicket.history.length + 1 ∧
    exTicket.updated ≤ ((postComment id 10 (Except.ok (some 2))
        ⟨some "hi", 3, some "t1"⟩ (Except.ok exTicket) none).ticketOr
        exTicket).updated :=
  postComment_appends_one id 10 2 ⟨some "hi", 3, some "t1"⟩ exTicket
    "hi" "t1" rfl rfl (by decide)

/-- C3: `update` applies exactly the fields present in the request body:
the saved ticket's `status`, `group` and `closedDate` each take the request
value when present and keep the stored value when absent, so a body that
omits `group` and `closedDate` leaves both unchanged. -/
theorem update_partial_fields (user : Nat) (oId : String) (body : UpdateBody)
    (t : Ticket) :
    update (some user) (some oId) body (Except.ok t) none =
      .savedTicket { t with
        status := body.status.getD t.status
        group := body.group.getD t.group
        closedDate := match body.closedDate with
          | none => t.closedDate
          | some c => some c } := by
  cases hs : body.status <;> cases hg : body.group <;>
    cases hc : body.closedDate <;> simp [update, hs, hg, hc]

/-- C4: `single` answers HTTP 200 with `{success:false, error:"Invalid
Ticket"}` both when the uid parameter is missing and when the store returns
no record for the uid. -/
theorem single_soft_invalid (uid : String)
    (lookup : Except String (Option Ticket)) :
    single none lookup = .json 200 false (some "Invalid Ticket") none ∧
    single (some uid) (Except.ok none) =
      .json 200 false (some "Invalid Ticket") none :=
  ⟨rfl, rfl⟩

/-- C5 counterexample: with both ids present, a requester whose role holds
the `tickets:removeAttachment` permission, a successful lookup and removal,
but a failing save, the handler answers HTTP 401 — not the 400 the claim
requires for a store failure, and a 401 despite the permission being
granted. -/
theorem removeAttachment_save_error_401 :
    (removeAttachment (some "t1") (some "a1") (some ⟨1, "admin"⟩) adminOnly
        (Except.ok exTicket) none (some "disk full")).status = 401 ∧
    ¬ (removeAttachment (some "t1") (some "a1") (some ⟨1, "admin"⟩) adminOnly
        (Except.ok exTicket) none (some "disk full")).status = 400 := by
  constructor <;> decide

/-- C5 amended: `removeAttachment` answers 400 on a missing id, a missing
user, a failed lookup or a failed removal; 401 when the requester lacks the
`tickets:removeAttachment` permission and also when the final save fails;
and sends the saved ticket otherwise. -/
theorem removeAttachment_status_contract
    (tid aid : String) (u1 u2 : ReqUser) (p : String → String → Bool)
    (t : Ticket) (e : String) (lookup : Except String Ticket)
    (removeErr saveErr : Option String) (user : Option ReqUser)
    (h1 : p u1.role "tickets:removeAttachment" = false)
    (h2 : p u2.role "tickets:removeAttachment" = true) :
    removeAttachment none (some aid) user p lookup removeErr saveErr =
      .jsonErr 400 "Invalid Attachment" ∧
    removeAttachment (some tid) none user p lookup removeErr saveErr =
      .jsonErr 400 "Invalid Attachment" ∧
    removeAttachment (some tid) (some aid) none p lookup removeErr saveErr =
      .jsonErr 400 "Invalid User Auth." ∧
    removeAttachment (some tid) (some aid) (some u1) p lookup removeErr
        saveErr = .jsonErr 401 "Invalid Permissions" ∧
    removeAttachment (some tid) (some aid) (some u2) p (Except.error e)
        removeErr saveErr = .sendStatusText 400 "Invalid Ticket Id" ∧
    removeAttachment (some tid) (some aid) (some u2) p (Except.ok t)
        (some e) saveErr = .jsonErr 400 "Invalid Request." ∧
    removeAttachment (some tid) (some aid) (some u2) p (Except.ok t) none
        (some e) = .jsonErr 401 "Invalid Request." ∧
    removeAttachment (some tid) (some aid) (some u2) p (Except.ok t) none
        none = .sendTicket (ticketRemoveAttachment aid t) := by
  refine ⟨rfl, rfl, rfl, ?_, ?_, ?_, ?_, ?_⟩ <;>
    simp [removeAttachment, h1, h2]

/-- Witness for the amended C5 with the `adminOnly` permission table. -/
theorem removeAttachment_status_contract_witness :
    removeAttachment none (some "a1") (some ⟨1, "admin"⟩) adminOnly
      (Except.ok exTicket) none none = .jsonErr 400 "Invalid Attachment" ∧
    removeAttachment (some "t1") none (some ⟨1, "admin"⟩) adminOnly
      (Except.ok exTicket) none none = .jsonErr 400 "Invalid Attachment" ∧
    removeAttachment (some "t1") (some "a1") none adminOnly
      (Except.ok exTicket) none none = .jsonErr 400 "Invalid User Auth." ∧
    removeAttachment (some "t1") (some "a1") (some ⟨2, "user"⟩) adminOnly
      (Except.ok exTicket) none none = .jsonErr 401 "Invalid Permissions" ∧
    removeAttachment (some "t1") (some "a1") (some ⟨1, "admin"⟩) adminOnly
      (Except.error "no ticket") none none =
      .sendStatusText 400 "Invalid Ticket Id" ∧
    removeAttachment (some "t1") (some "a1") (some ⟨1, "admin"⟩) adminOnly
      (Except.ok exTicket) (some "no ticket") none =
      .jsonErr 400 "Invalid Request." ∧
    removeAttachment (some "t1") (some "a1") (some ⟨1, "admin"⟩) adminOnly
      (Except.ok exTicket) none (some "no ticket") =
      .jsonErr 401 "Invalid Request." ∧
    removeAttachment (some "t1") (some "a1") (some ⟨1, "admin"⟩) adminOnly
      (Except.ok exTicket) none none =
      .sendTicket (ticketRemoveAttachment "a1" exTicket) :=
  removeAttachment_status_contract "t1" "a1" ⟨2, "user"⟩ ⟨1, "admin"⟩
    adminOnly exTicket "no ticket" (Except.ok exTicket) none none
    (some ⟨1, "admin"⟩) (by decide) (by decide)

/-- C6 counterexample: the tags string `"a,a"` is stored as the list
`["a","a"]`, which has a duplicate — `create` does not normalize tags into
a set. -/
theorem create_tags_duplicates_counterexample :
    (createdTicket (create id 1
        (.obj ⟨none, some "a,a", some "S", some "i"⟩) none)).map Ticket.tags =
      some ["a", "a"] ∧
    ¬ (["a", "a"] : List String).Nodup := by
  constructor <;> decide

/-- C6 amended: a successful `create` with a tags string stores the cleaned
string split on commas with falsy (empty) elements removed — duplicates are
retained (a list, not a set) — with an empty comments list and a one-entry
history; on the input `"a,b,c"` the stored tags are `["a","b","c"]`. -/
theorem create_tags_normalized (marked : String → String) (u : Nat)
    (d : CreatePostData) (iss ts : String)
    (hi : d.issue = some iss) (htags : d.tags = some ts) :
    (createdTicket (create marked u (.obj d) none)).map
        (fun t => (t.tags, t.comments, t.history.length)) =
      some (normalizeTags (some ts), [], 1) ∧
    "" ∉ normalizeTags (some ts) ∧
    (ts = "a,b,c" → normalizeTags (some ts) = ["a", "b", "c"]) := by
  refine ⟨?_, ?_, ?_⟩
  · simp [create, createdTicket, ticketFromPost, hi, htags]
  · simp [normalizeTags, List.mem_filter]
  · rintro rfl; decide

/-- Witness for the amended C6 at the spec's example input. -/
theorem create_tags_normalized_witness :
    (createdTicket (create id 1
        (.obj ⟨none, some "a,b,c", some "Subject", some "i"⟩) none)).map
        (fun t => (t.tags, t.comments, t.history.length)) =
      some (normalizeTags (some "a,b,c"), [], 1) ∧
    "" ∉ normalizeTags (some "a,b,c") ∧
    ("a,b,c" = "a,b,c" → normalizeTags (some "a,b,c") = ["a", "b", "c"]) :=
  create_tags_normalized id 1 ⟨none, some "a,b,c", some "Subject", some "i"⟩
    "i" "a,b,c" rfl rfl

/-- C7: `create` answers 400 with `success:false` and an error value when
the body is not an object and when persistence fails; on success the
response carries `success:true` and the saved ticket. -/
theorem create_response_contract
    (marked : String → String) (u : Nat) (d : CreatePostData) (iss e : String)
    (saveErr : Option String) (hi : d.issue = some iss) :
    create marked u .notObject saveErr =
      some ⟨400, false, some "Invalid Post Data", none⟩ ∧
    create marked u (.obj d) (some e) = some ⟨400, false, some e, none⟩ ∧
    (create marked u (.obj d) none).map
        (fun r => (r.status, r.success, r.error, r.ticket.isSome)) =
      some (200, true, none, true) := by
  refine ⟨rfl, ?_, ?_⟩ <;> simp [create, ticketFromPost, hi]

/-- Witness for C7 at a concrete payload and save error. -/
theorem create_response_contract_witness :
    create id 4 .notObject (some "boom") =
      some ⟨400, false, some "Invalid Post Data", none⟩ ∧
    create id 4 (.obj ⟨none, none, some "S", some "i"⟩) (some "boom") =
      some ⟨400, false, some "boom", none⟩ ∧
    (create id 4 (.obj ⟨none, none, some "S", some "i"⟩) none).map
        (fun r => (r.status, r.success, r.error, r.ticket.isSome)) =
      some (200, true, none, true) :=
  create_response_contract id 4 ⟨none, none, some "S", some "i"⟩ "i" "boom"
    (some "boom") rfl

/-- C8 counterexample: user 5 is already a subscriber of `exSubTicket`;
after `subscribe:true` followed by `subscribe:false` the user is no longer
a subscriber, so the membership is not restored. -/
theorem subscribe_toggle_counterexample :
    5 ∈ exSubTicket.subscribers ∧
    5 ∉ ((subscribe (some "1") ⟨some 5, some false⟩
          (Except.ok ((subscribe (some "1") ⟨some 5, some true⟩
            (Except.ok exSubTicket) none).ticketOr exSubTicket))
          none).ticketOr exSubTicket).subscribers := by
  decide

/-- C8 amended: toggling with `subscribe:true` then `subscribe:false`
always leaves the user off the subscriber set, and `subscribe:false` then
`subscribe:true` always leaves the user on it, while every other user's
membership is untouched; the original membership is therefore restored
exactly when the user's initial membership agreed with the second toggle's
result (absent for true-then-false, present for false-then-true). -/
theorem subscribe_toggle_amended (tid : Option String) (u : Nat) (t : Ticket) :
    u ∉ ((subscribe tid ⟨some u, some false⟩
        (Except.ok ((subscribe tid ⟨some u, some true⟩ (Except.ok t)
          none).ticketOr t)) none).ticketOr t).subscribers ∧
    u ∈ ((subscribe tid ⟨some u, some true⟩
        (Except.ok ((subscribe tid ⟨some u, some false⟩ (Except.ok t)
          none).ticketOr t)) none).ticketOr t).subscribers ∧
    ((subscribe tid ⟨some u, some false⟩
        (Except.ok ((subscribe tid ⟨some u, some true⟩ (Except.ok t)
          none).ticketOr t)) none).ticketOr t).subscribers.filter
        (fun v => v ≠ u) = t.subscribers.filter (fun v => v ≠ u) ∧
    ((subscribe tid ⟨some u, some true⟩
        (Except.ok ((subscribe tid ⟨some u, some false⟩ (Except.ok t)
          none).ticketOr t)) none).ticketOr t).subscribers.filter
        (fun v => v ≠ u) = t.subscribers.filter (fun v => v ≠ u) := by
  by_cases h : u ∈ t.subscribers <;>
    simp [subscribe, SubResult.ticketOr, addSubscriber, removeSubscriber, h,
      List.mem_filter, List.filter_append, List.filter_filter]

/-- C9: when `req.user` is undefined or null, the `update` handler falls
through its guard: no store operation is performed, no ticket is mutated
and no response of any kind is sent. -/
theorem update_no_user_no_action (oId : Option String) (body : UpdateBody)
    (lookup : Except String Ticket) (saveErr : Option String) :
    update none oId body lookup saveErr = .noAction :=
  rfl

/-- C10: an object-valued create payload whose `issue` field is absent makes
the handler throw while applying the line-break replacement to the
undefined issue, before persisting — no response (in particular not the
declared 400 body) is ever sent, whatever the store would have answered. -/
theorem create_throws_on_missing_issue
    (marked : String → String) (u : Nat) (d : CreatePostData)
    (saveErr : Option String) (hi : d.issue = none) :
    create marked u (.obj d) saveErr = none := by
  simp [create, ticketFromPost, hi]

/-- Witness for C10 at a concrete payload with no issue field. -/
theorem create_throws_on_missing_issue_witness :
    create id 3 (.obj ⟨none, some "a,b", some "Subject", none⟩) (some "boom") =
      none :=
  create_throws_on_missing_issue id 3 ⟨none, some "a,b", some "Subject", none⟩
    (some "boom") rfl

end Trudesk
